import Mathlib

/-!
Verification of the aionic DNS-API client (src/aionic/models.py, src/aionic/api.py).

The XML data model mirrors xml.etree.ElementTree.Element: a tag, an ordered
attribute list, the text before the first child, and the ordered child list.
Python exceptions are modelled by the PyError type and fallible code returns
Except PyError. Python str values that may be None are Option String.

One deliberate representation choice, documented where it matters:
DNSRecord.to_xml in the source executes root.attrib[<id key>] = self.id with an
int value; ElementTree keeps the raw int in the attribute dictionary (it would
only fail later, at serialization time).  Here attribute values are strings and
the id is stored via toString.  This is observationally equivalent for every
claim below because the decoder passes the attribute into cls(**kwargs) under
the key id, which DNSRecord.__init__ (whose parameter is named id_) silently
discards, so the decoded value is never inspected.
-/

namespace Aionic

/-- Python exceptions raised by the code under study. -/
inductive PyError where
  | valueError (msg : String)
  | typeError (msg : String)
  | attributeError (msg : String)
  | keyError (msg : String)
  | assertionError
  | nameError (msg : String)
  | dnsApiException (msg : String)
deriving Repr, DecidableEq

/-- xml.etree.ElementTree.Element: tag, attribute dictionary (ordered pairs),
text before the first child, ordered children. -/
structure Element where
  tag : String
  attrib : List (String × String)
  text : Option String
  children : List Element

/-- findall over a relative tag path, document order: for path "a/b" every b
child of every a child of the element, in order (ElementTree semantics). -/
def Element.findAll : Element → List String → List Element
  | e, [] => [e]
  | e, t :: rest =>
      ((e.children.filter (fun c => c.tag = t)).map
        (fun c => Element.findAll c rest)).flatten

/-- Element.find: first match of findall, or None. -/
def Element.find (e : Element) (path : List String) : Option Element :=
  (e.findAll path).head?

/-- attrib.get(key): first binding of the key in the attribute dictionary. -/
def Element.attrGet (e : Element) (key : String) : Option String :=
  (e.attrib.find? (fun kv => kv.1 = key)).map (fun kv => kv.2)

/-- attrib.get(key, default). -/
def Element.attrGetD (e : Element) (key : String) (dflt : String) : String :=
  (e.attrGet key).getD dflt

/-- Python str.isspace per character, the set str.strip() removes: the ASCII
whitespace controls and space, the C1 controls FS/GS/RS/US and NEL, and the
Unicode space/line/paragraph separators. -/
def pySpace (c : Char) : Bool :=
  (9 ≤ c.toNat && c.toNat ≤ 13) || c.toNat = 32
  || (28 ≤ c.toNat && c.toNat ≤ 31) || c.toNat = 0x85 || c.toNat = 0xa0
  || c.toNat = 0x1680 || (0x2000 ≤ c.toNat && c.toNat ≤ 0x200a)
  || c.toNat = 0x2028 || c.toNat = 0x2029 || c.toNat = 0x202f
  || c.toNat = 0x205f || c.toNat = 0x3000

/-- Python str.strip(): drop leading and trailing whitespace. -/
def pyStrip (s : String) : String :=
  ⟨((s.data.dropWhile pySpace).reverse.dropWhile pySpace).reverse⟩

/-- str.format of a value that may be None: None prints as the text None. -/
def fmtOptStr : Option String → String
  | some s => s
  | none => "None"

/-- Digit-string to Nat, None when the (sign-stripped) body is not all digits
or is empty. -/
def parseDigits (l : List Char) : Option Nat :=
  if l.isEmpty then none
  else if l.all Char.isDigit then
    some (l.foldl (fun n c => n * 10 + (c.toNat - 48)) 0)
  else none

/-- Python int(str): optional surrounding whitespace, optional sign, decimal
digits; raises ValueError otherwise.  (CPython additionally accepts underscore
digit grouping, which no text produced or consumed by this client contains.) -/
def pyInt (s : String) : Except PyError Int :=
  let l := (pyStrip s).data
  let signBody : Bool × List Char :=
    match l with
    | c :: cs =>
        if c = '-' then (true, cs)
        else if c = '+' then (false, cs)
        else (false, l)
    | [] => (false, l)
  match parseDigits signBody.2 with
  | some n => .ok (if signBody.1 then -(n : Int) else (n : Int))
  | none => .error (.valueError ("invalid literal for int: " ++ s))

/-- int(el.text): int(None) is a TypeError in Python. -/
def pyIntOfText : Option String → Except PyError Int
  | none => .error (.typeError "int argument must not be NoneType")
  | some s => pyInt s

/-- Common DNSRecord fields after __init__ ran: id, name, idn_name (defaulted
to name when the argument was None), ttl. -/
structure RBase where
  id : Option Int
  name : Option String
  idn_name : Option String
  ttl : Option String
deriving Repr, DecidableEq

/-- The closed record variants of models.py.  base is the DNSRecord base class
itself, used for the name-only sub-records nested inside SOA (mname/rname). -/
inductive Rec where
  | base (b : RBase)
  | soa (b : RBase) (serial refresh retry expire minimum : Int) (mname rname : RBase)
  | ns (b : RBase) (ns_name : Option String)
  | a (b : RBase) (a : Option String)
  | aaaa (b : RBase) (aaaa : Option String)
  | cname (b : RBase) (cname : Option String)
  | mx (b : RBase) (preference : Int) (exchange : Option String)
  | txt (b : RBase) (txt : Option String)
  | srv (b : RBase) (priority weight port : Int) (target : Option String)
  | ptr (b : RBase) (ptr_name : Option String)
deriving Repr, DecidableEq

/-- DNSRecord.__init__(id_, name, idn_name, ttl): id is int(id_) when id_ is
not None (int() is the identity on an int); idn_name defaults to name; a zero
id raises ValueError after the assignments, so no object is produced. -/
def DNSRecord.init (id_ : Option Int) (name idn_name ttl : Option String) :
    Except PyError RBase :=
  let idv := id_
  let idn := idn_name.or name
  if idv = some 0 then .error (.valueError "Invalid record ID!")
  else .ok { id := idv, name := name, idn_name := idn, ttl := ttl }

/-- The kwargs dictionary DNSRecord._get_kwargs builds from an element.
idAttr holds attrib.get(id).  _get_kwargs stores it under the key id, but
DNSRecord.__init__ has no parameter of that name (its parameter is id_), so
cls(**kwargs) swallows it in **kwargs and the decoded record gets id_ = None.
An idn-name or ttl child that is present with empty text yields the kwarg
bound to None, indistinguishable from an absent kwarg at __init__, so both
are collapsed into one Option here. -/
structure BaseKwargs where
  idAttr : Option String
  name : Option String
  idn_name : Option String
  ttl : Option String
deriving Repr, DecidableEq

/-- DNSRecord._get_kwargs: obj.find(name).text raises AttributeError when the
name child is missing; idn-name and ttl are optional. -/
def DNSRecord.getKwargs (obj : Element) : Except PyError BaseKwargs :=
  match obj.find ["name"] with
  | none => .error (.attributeError "NoneType object has no attribute text")
  | some nameEl =>
      .ok { idAttr := obj.attrGet "id"
            name := nameEl.text
            idn_name := (obj.find ["idn-name"]).bind Element.text
            ttl := (obj.find ["ttl"]).bind Element.text }

/-- The type-tag guard at the top of DNSRecord.from_xml for a subclass with
type_name tn: obj.find(type).text raises AttributeError when there is no type
child, and a mismatching text raises ValueError. -/
def typeCheckFor (tn : String) (obj : Element) : Except PyError Unit :=
  match obj.find ["type"] with
  | none => .error (.attributeError "NoneType object has no attribute text")
  | some el =>
      if el.text = some tn then .ok ()
      else .error (.valueError ("Record is not a " ++ tn ++ " record!"))

/-- DNSRecord._find_field: find path+key under the element, ValueError when
absent. -/
def findField (obj : Element) (path : List String) (key : String) :
    Except PyError Element :=
  match obj.find (path ++ [key]) with
  | none => .error (.valueError ("The field " ++ key ++ " not found"))
  | some el => .ok el

/-- DNSRecord.from_xml on the base class (used for the SOA mname/rname
sub-records): type_name is None so the tag check is skipped; cls(**kwargs)
discards the id entry of the kwargs (see BaseKwargs), so id_ is None. -/
def DNSRecord.from_xml (obj : Element) : Except PyError RBase := do
  let kw ← DNSRecord.getKwargs obj
  DNSRecord.init none kw.name kw.idn_name kw.ttl

/-- SOARecord.from_xml.  _get_kwargs extracts, in order, the base kwargs, the
five numeric texts under soa/, and the two nested base records; cls(**kwargs)
then runs DNSRecord.__init__ (id dropped, see BaseKwargs) followed by the
int() conversions of the numeric texts, in declaration order. -/
def SOARecord.from_xml (obj : Element) : Except PyError Rec := do
  typeCheckFor "SOA" obj
  let kw ← DNSRecord.getKwargs obj
  let serialEl ← findField obj ["soa"] "serial"
  let refreshEl ← findField obj ["soa"] "refresh"
  let retryEl ← findField obj ["soa"] "retry"
  let expireEl ← findField obj ["soa"] "expire"
  let minimumEl ← findField obj ["soa"] "minimum"
  let mnameEl ← findField obj ["soa"] "mname"
  let mname ← DNSRecord.from_xml mnameEl
  let rnameEl ← findField obj ["soa"] "rname"
  let rname ← DNSRecord.from_xml rnameEl
  let b ← DNSRecord.init none kw.name kw.idn_name kw.ttl
  let serial ← pyIntOfText serialEl.text
  let refresh ← pyIntOfText refreshEl.text
  let retry ← pyIntOfText retryEl.text
  let expire ← pyIntOfText expireEl.text
  let minimum ← pyIntOfText minimumEl.text
  pure (.soa b serial refresh retry expire minimum mname rname)

/-- NSRecord.from_xml: ns_name from ns/name. -/
def NSRecord.from_xml (obj : Element) : Except PyError Rec := do
  typeCheckFor "NS" obj
  let kw ← DNSRecord.getKwargs obj
  let el ← findField obj ["ns"] "name"
  let b ← DNSRecord.init none kw.name kw.idn_name kw.ttl
  pure (.ns b el.text)

/-- ARecord.from_xml: a from the a child. -/
def ARecord.from_xml (obj : Element) : Except PyError Rec := do
  typeCheckFor "A" obj
  let kw ← DNSRecord.getKwargs obj
  let el ← findField obj [] "a"
  let b ← DNSRecord.init none kw.name kw.idn_name kw.ttl
  pure (.a b el.text)

/-- AAAARecord.from_xml: aaaa from the aaaa child. -/
def AAAARecord.from_xml (obj : Element) : Except PyError Rec := do
  typeCheckFor "AAAA" obj
  let kw ← DNSRecord.getKwargs obj
  let el ← findField obj [] "aaaa"
  let b ← DNSRecord.init none kw.name kw.idn_name kw.ttl
  pure (.aaaa b el.text)

/-- CNAMERecord.from_xml: cname from cname/name. -/
def CNAMERecord.from_xml (obj : Element) : Except PyError Rec := do
  typeCheckFor "CNAME" obj
  let kw ← DNSRecord.getKwargs obj
  let el ← findField obj ["cname"] "name"
  let b ← DNSRecord.init none kw.name kw.idn_name kw.ttl
  pure (.cname b el.text)

/-- MXRecord.from_xml: preference text under mx/, exchange from
mx/exchange/name; __init__ then applies int() to the preference text. -/
def MXRecord.from_xml (obj : Element) : Except PyError Rec := do
  typeCheckFor "MX" obj
  let kw ← DNSRecord.getKwargs obj
  let prefEl ← findField obj ["mx"] "preference"
  let exEl ← findField obj ["mx", "exchange"] "name"
  let b ← DNSRecord.init none kw.name kw.idn_name kw.ttl
  let preference ← pyIntOfText prefEl.text
  pure (.mx b preference exEl.text)

/-- TXTRecord._get_kwargs collects the texts of all txt/string fragments and
binds the txt kwarg only when there is exactly one; otherwise cls(**kwargs)
raises TypeError for the missing required positional argument before any
field of the record is initialized. -/
def TXTRecord.from_xml (obj : Element) : Except PyError Rec := do
  typeCheckFor "TXT" obj
  let kw ← DNSRecord.getKwargs obj
  let frags := (obj.findAll ["txt", "string"]).map Element.text
  match frags with
  | [t] => do
      let b ← DNSRecord.init none kw.name kw.idn_name kw.ttl
      pure (.txt b t)
  | _ =>
      .error (.typeError
        "TXTRecord.__init__ missing 1 required positional argument: txt")

/-- SRVRecord.from_xml: priority/weight/port texts under srv/, target from
srv/target/name; __init__ then applies int() to the three numeric texts. -/
def SRVRecord.from_xml (obj : Element) : Except PyError Rec := do
  typeCheckFor "SRV" obj
  let kw ← DNSRecord.getKwargs obj
  let prEl ← findField obj ["srv"] "priority"
  let wEl ← findField obj ["srv"] "weight"
  let poEl ← findField obj ["srv"] "port"
  let tEl ← findField obj ["srv", "target"] "name"
  let b ← DNSRecord.init none kw.name kw.idn_name kw.ttl
  let priority ← pyIntOfText prEl.text
  let weight ← pyIntOfText wEl.text
  let port ← pyIntOfText poEl.text
  pure (.srv b priority weight port tEl.text)

/-- PTRRecord.from_xml: ptr_name from ptr/name. -/
def PTRRecord.from_xml (obj : Element) : Except PyError Rec := do
  typeCheckFor "PTR" obj
  let kw ← DNSRecord.getKwargs obj
  let el ← findField obj ["ptr"] "name"
  let b ← DNSRecord.init none kw.name kw.idn_name kw.ttl
  pure (.ptr b el.text)

/-- The nine registered type tags, in subclass definition order. -/
def registeredTags : List String :=
  ["SOA", "NS", "A", "AAAA", "CNAME", "MX", "TXT", "SRV", "PTR"]

/-- DNSRecord.create: reads obj.find(type).text (AttributeError when there is
no type child) and walks the closed set of subclasses in definition order,
delegating to the from_xml of the one whose type_name equals the tag text;
an unregistered tag raises TypeError (unknown record type). -/
def DNSRecord.create (obj : Element) : Except PyError Rec :=
  match obj.find ["type"] with
  | none => .error (.attributeError "NoneType object has no attribute text")
  | some tyEl =>
      let t := tyEl.text
      if t = some "SOA" then SOARecord.from_xml obj
      else if t = some "NS" then NSRecord.from_xml obj
      else if t = some "A" then ARecord.from_xml obj
      else if t = some "AAAA" then AAAARecord.from_xml obj
      else if t = some "CNAME" then CNAMERecord.from_xml obj
      else if t = some "MX" then MXRecord.from_xml obj
      else if t = some "TXT" then TXTRecord.from_xml obj
      else if t = some "SRV" then SRVRecord.from_xml obj
      else if t = some "PTR" then PTRRecord.from_xml obj
      else .error (.typeError ("Unknown record type: " ++ fmtOptStr t))

/-- Modelled from the spec: api.py imports parse_record from models, but
models.py under src does not define it.  Per the spec (section 4.1) the
dispatcher reads the type tag and selects the matching variant decoder from
the closed registry of nine tags, which is exactly DNSRecord.create. -/
def parse_record (obj : Element) : Except PyError Rec :=
  DNSRecord.create obj

/-- DNSRecord.to_xml(base_name): the rr-equivalent element with the optional
id attribute and the name / optional idn-name / optional ttl / optional type
children, in that order.  tn is the type_name of the class (None on the base
class, so the sub-records nested inside SOA carry no type child). -/
def RBase.to_xml (b : RBase) (tn : Option String) (base_name : String) :
    Element :=
  { tag := base_name
    attrib := match b.id with
      | some i => [("id", toString i)]
      | none => []
    text := none
    children :=
      [{ tag := "name", attrib := [], text := b.name, children := [] }]
      ++ (match b.idn_name with
          | some s => [{ tag := "idn-name", attrib := [], text := some s,
                         children := [] }]
          | none => [])
      ++ (match b.ttl with
          | some s => [{ tag := "ttl", attrib := [], text := some s,
                         children := [] }]
          | none => [])
      ++ (match tn with
          | some t => [{ tag := "type", attrib := [], text := some t,
                         children := [] }]
          | none => []) }

/-- A leaf child element with only text. -/
def leafEl (tag : String) (text : Option String) : Element :=
  { tag := tag, attrib := [], text := text, children := [] }

/-- A child element wrapping other children. -/
def nodeEl (tag : String) (children : List Element) : Element :=
  { tag := tag, attrib := [], text := none, children := children }

/-- Append the variant sub-element produced after super().to_xml(). -/
def addSub (root : Element) (sub : Element) : Element :=
  { root with children := root.children ++ [sub] }

/-- to_xml of every variant: the base element followed by the variant
sub-structure, exactly as each subclass builds it. -/
def Rec.to_xml : Rec → Element
  | .base b => b.to_xml none "rr"
  | .soa b serial refresh retry expire minimum mname rname =>
      addSub (b.to_xml (some "SOA") "rr")
        (nodeEl "soa"
          [leafEl "serial" (some (toString serial)),
           leafEl "refresh" (some (toString refresh)),
           leafEl "retry" (some (toString retry)),
           leafEl "expire" (some (toString expire)),
           leafEl "minimum" (some (toString minimum)),
           mname.to_xml none "mname",
           rname.to_xml none "rname"])
  | .ns b ns_name =>
      addSub (b.to_xml (some "NS") "rr") (nodeEl "ns" [leafEl "name" ns_name])
  | .a b av =>
      addSub (b.to_xml (some "A") "rr") (leafEl "a" av)
  | .aaaa b av =>
      addSub (b.to_xml (some "AAAA") "rr") (leafEl "aaaa" av)
  | .cname b cv =>
      addSub (b.to_xml (some "CNAME") "rr")
        (nodeEl "cname" [leafEl "name" cv])
  | .mx b preference exchange =>
      addSub (b.to_xml (some "MX") "rr")
        (nodeEl "mx"
          [leafEl "preference" (some (toString preference)),
           nodeEl "exchange" [leafEl "name" exchange]])
  | .txt b tv =>
      addSub (b.to_xml (some "TXT") "rr")
        (nodeEl "txt" [leafEl "string" tv])
  | .srv b priority weight port target =>
      addSub (b.to_xml (some "SRV") "rr")
        (nodeEl "srv"
          [leafEl "priority" (some (toString priority)),
           leafEl "weight" (some (toString weight)),
           leafEl "port" (some (toString port)),
           nodeEl "target" [leafEl "name" target]])
  | .ptr b pv =>
      addSub (b.to_xml (some "PTR") "rr") (nodeEl "ptr" [leafEl "name" pv])

/-!  Direct construction of records (client composing a record to submit),
mirroring each __init__ chain.  ttl is passed through unchanged; the numeric
variant fields are ints, on which the int() conversion of __init__ is the
identity. -/

/-- SOARecord(serial, refresh, retry, expire, minimum, mname, rname, id_,
name, idn_name, ttl). -/
def SOARecord.mk (serial refresh retry expire minimum : Int)
    (mname rname : RBase) (id_ : Option Int) (name idn_name ttl : Option String) :
    Except PyError Rec := do
  let b ← DNSRecord.init id_ name idn_name ttl
  pure (.soa b serial refresh retry expire minimum mname rname)

/-- NSRecord(ns_name, id_, name, idn_name, ttl). -/
def NSRecord.mk (ns_name : Option String) (id_ : Option Int)
    (name idn_name ttl : Option String) : Except PyError Rec := do
  let b ← DNSRecord.init id_ name idn_name ttl
  pure (.ns b ns_name)

/-- ARecord(a, id_, name, idn_name, ttl). -/
def ARecord.mk (av : Option String) (id_ : Option Int)
    (name idn_name ttl : Option String) : Except PyError Rec := do
  let b ← DNSRecord.init id_ name idn_name ttl
  pure (.a b av)

/-- AAAARecord(aaaa, id_, name, idn_name, ttl). -/
def AAAARecord.mk (av : Option String) (id_ : Option Int)
    (name idn_name ttl : Option String) : Except PyError Rec := do
  let b ← DNSRecord.init id_ name idn_name ttl
  pure (.aaaa b av)

/-- CNAMERecord(cname, id_, name, idn_name, ttl). -/
def CNAMERecord.mk (cv : Option String) (id_ : Option Int)
    (name idn_name ttl : Option String) : Except PyError Rec := do
  let b ← DNSRecord.init id_ name idn_name ttl
  pure (.cname b cv)

/-- MXRecord(preference, exchange, id_, name, idn_name, ttl). -/
def MXRecord.mk (preference : Int) (exchange : Option String)
    (id_ : Option Int) (name idn_name ttl : Option String) :
    Except PyError Rec := do
  let b ← DNSRecord.init id_ name idn_name ttl
  pure (.mx b preference exchange)

/-- TXTRecord(txt, id_, name, idn_name, ttl). -/
def TXTRecord.mk (tv : Option String) (id_ : Option Int)
    (name idn_name ttl : Option String) : Except PyError Rec := do
  let b ← DNSRecord.init id_ name idn_name ttl
  pure (.txt b tv)

/-- SRVRecord(priority, weight, port, target, id_, name, idn_name, ttl). -/
def SRVRecord.mk (priority weight port : Int) (target : Option String)
    (id_ : Option Int) (name idn_name ttl : Option String) :
    Except PyError Rec := do
  let b ← DNSRecord.init id_ name idn_name ttl
  pure (.srv b priority weight port target)

/-- PTRRecord(ptr_name, id_, name, idn_name, ttl). -/
def PTRRecord.mk (pv : Option String) (id_ : Option Int)
    (name idn_name ttl : Option String) : Except PyError Rec := do
  let b ← DNSRecord.init id_ name idn_name ttl
  pure (.ptr b pv)

/-!  api.py: the envelope protocol of NICApi. -/

namespace NICApi

/-- The error-accumulation loop of _parse_answer:
for item in root.findall(errors/error):
  error += " Code: {code attr or empty}. {item text}"
(str.format prints a None text as the text None). -/
def errLoop (acc : String) : List Element → String
  | [] => acc
  | item :: rest =>
      errLoop
        (acc ++ " Code: " ++ item.attrGetD "code" "" ++ ". "
             ++ fmtOptStr item.text)
        rest

/-- NICApi._parse_answer(body).  root is the ElementTree parse of body (the
XML parser is the external primitive of the spec).  The source message text
reads Can t find with an apostrophe; it is reproduced here without it. -/
def parseAnswer (body : String) (root : Element) :
    Except PyError (Option String × String × Option Element) :=
  let data := root.find ["data"]
  match root.find ["status"] with
  | none =>
      .error (.dnsApiException ("Cannot find <status> in response: " ++ body))
  | some st =>
      let error := errLoop "" (root.findAll ["errors", "error"])
      .ok (st.text, pyStrip error, data)

/-- The dynamic value _request_data returns in the data position: the data
element, Python None, or the empty list substituted by data_as_list. -/
inductive DataVal where
  | pynone
  | elem (e : Element)
  | emptyList

/-- NICApi._request_data after the transport call: parse the body, raise
DnsApiException(error) on a non-success status, substitute [] for a missing
data element when data_as_list, and raise (with the raw body in the message)
when data_none_except and data is still None. -/
def requestData (body : String) (root : Element)
    (data_as_list data_none_except : Bool) : Except PyError DataVal :=
  match parseAnswer body root with
  | .error e => .error e
  | .ok (status, error, data) =>
      if status = some "success" then
        let d : DataVal :=
          if data_as_list then
            match data with
            | none => .emptyList
            | some e => .elem e
          else
            match data with
            | none => .pynone
            | some e => .elem e
        match data_none_except, d with
        | true, .pynone =>
            .error (.dnsApiException
              ("Cannot find <data> in response: " ++ body))
        | _, _ => .ok d
      else .error (.dnsApiException error)

/-- The body of NICApi.records after _request_data returned the data element:
_zone = data.find(zone) (AttributeError on None), its name attribute
(KeyError when absent) is asserted equal to the requested zone name
(AssertionError on mismatch: the zone-mismatch guard), then every rr child of
the zone element is decoded by parse_record, in document order. -/
def recordsDecode (zone : String) (data : Element) :
    Except PyError (List Rec) :=
  match data.find ["zone"] with
  | none => .error (.attributeError "NoneType object has no attribute attrib")
  | some z =>
      match z.attrGet "name" with
      | none => .error (.keyError "name")
      | some n =>
          if n = zone then List.mapM parse_record (z.findAll ["rr"])
          else .error .assertionError

/-- NICApi.add_record builds the write body by evaluating
textwrap.dedent(template).format(join of rr_list), but api.py never imports
textwrap, so the very first name lookup of that expression raises NameError
before any body is produced (and rr_list holds ElementTree Elements, so the
string join would raise TypeError even with the import in place). -/
def addRecordBuildBody (_rr_list : List Element) : Except PyError String :=
  .error (.nameError "name textwrap is not defined")

end NICApi

/-!  Claim-side vocabulary: the shapes the specification sentences describe,
to be compared with the functions embedded from the source. -/

/-- One error descriptor rendered as the spec words it: Code: code. message. -/
def fmtPair (p : String × String) : String :=
  "Code: " ++ p.1 ++ ". " ++ p.2

/-- Joining rendered descriptors by single spaces. -/
def spaceJoin : List String → String
  | [] => ""
  | [x] => x
  | x :: xs => x ++ " " ++ spaceJoin xs

/-- The message text ends in a non-whitespace character (in particular it is
nonempty): the shape of every descriptor message the spec sentence about
space-joining describes. -/
def lastOk (s : String) : Bool :=
  match s.data.getLast? with
  | some c => !(pySpace c)
  | none => false

/-- The final descriptor's message, if any, ends in a non-whitespace
character: exactly the inputs on which the closing strip() of _parse_answer
removes nothing from the right end of the accumulated error text. -/
def lastMsgOk (pairs : List (String × String)) : Bool :=
  match pairs.getLast? with
  | some p => lastOk p.2
  | none => true

/-!  Concrete fixture elements used by witnesses and counterexamples. -/

/-- A response envelope with no status element. -/
def exNoStatus : Element :=
  nodeEl "response" [nodeEl "data" []]

/-- A successful envelope with no data element. -/
def exSuccessNoData : Element :=
  nodeEl "response" [leafEl "status" (some "success")]

/-- A data element holding a zone named b.ru with no rr children. -/
def exDataZoneB : Element :=
  nodeEl "data"
    [{ tag := "zone", attrib := [("name", "b.ru")], text := none,
       children := [] }]

/-- A record element with an unregistered type tag. -/
def exUnknown : Element :=
  nodeEl "rr" [leafEl "name" (some "n"), leafEl "type" (some "UNKNOWN")]

/-- A well-formed PTR record element. -/
def exPtr : Element :=
  nodeEl "rr"
    [leafEl "name" (some "1.0.168.192.in-addr"),
     leafEl "type" (some "PTR"),
     nodeEl "ptr" [leafEl "name" (some "www.test.ru.")]]

/-- A TXT record element carrying two text fragments. -/
def exTxt2 : Element :=
  nodeEl "rr"
    [leafEl "name" (some "n"),
     leafEl "type" (some "TXT"),
     nodeEl "txt" [leafEl "string" (some "x"), leafEl "string" (some "y")]]

/-- A TXT record element carrying exactly one text fragment. -/
def exTxt1 : Element :=
  nodeEl "rr"
    [leafEl "name" (some "n"),
     leafEl "type" (some "TXT"),
     nodeEl "txt" [leafEl "string" (some "hello")]]

/-!  Helper lemmas about the error-text accumulation of _parse_answer. -/

/-- The raw concatenation the _parse_answer loop builds: every descriptor
rendered with its leading space, in order. -/
def piecesCat : List (String × String) → String
  | [] => ""
  | p :: ps => " Code: " ++ p.1 ++ ". " ++ p.2 ++ piecesCat ps

theorem errLoop_acc : ∀ (items : List Element) (acc : String),
    NICApi.errLoop acc items = acc ++ NICApi.errLoop "" items := by
  intro items
  induction items with
  | nil =>
      intro acc
      apply String.ext
      simp [NICApi.errLoop]
  | cons it rest ih =>
      intro acc
      simp only [NICApi.errLoop]
      rw [ih, ih ("" ++ " Code: " ++ it.attrGetD "code" "" ++ ". "
            ++ fmtOptStr it.text)]
      apply String.ext
      simp [List.append_assoc]

theorem errLoop_eq_piecesCat :
    ∀ (items : List Element) (pairs : List (String × String)),
    items.map (fun it => (it.attrGetD "code" "", it.text))
      = pairs.map (fun p => (p.1, some p.2)) →
    NICApi.errLoop "" items = piecesCat pairs := by
  intro items
  induction items with
  | nil =>
      intro pairs h
      have hp : pairs = [] := by
        cases pairs with
        | nil => rfl
        | cons p ps => simp at h
      subst hp
      rfl
  | cons it rest ih =>
      intro pairs h
      cases pairs with
      | nil => simp at h
      | cons p ps =>
          simp only [List.map_cons, List.cons.injEq, Prod.mk.injEq] at h
          obtain ⟨⟨h1, h2⟩, h3⟩ := h
          simp only [NICApi.errLoop]
          rw [errLoop_acc, ih ps h3, h1, h2]
          apply String.ext
          simp [piecesCat, fmtOptStr, List.append_assoc]

/-- A list whose head is a known non-space character survives dropWhile. -/
theorem dropWhile_head_not (l : List Char) (c : Char) (h : l.head? = some c)
    (hc : pySpace c = false) : l.dropWhile pySpace = l := by
  cases l with
  | nil => simp at h
  | cons a as =>
      simp only [List.head?_cons, Option.some.injEq] at h
      subst h
      rw [List.dropWhile_cons_of_neg]
      simp [hc]

theorem fmtPair_head (p : String × String) :
    (fmtPair p).data.head? = some 'C' :=
  rfl

theorem piecesCat_data : ∀ (ps : List (String × String)) (p : String × String),
    (piecesCat (p :: ps)).data
      = ' ' :: (spaceJoin ((p :: ps).map fmtPair)).data := by
  intro ps
  induction ps with
  | nil =>
      intro p
      show (" Code: " ++ p.1 ++ ". " ++ p.2 ++ "").data
        = ' ' :: (fmtPair p).data
      simp [fmtPair, List.append_assoc]
  | cons q qs ih =>
      intro p
      show (" Code: " ++ p.1 ++ ". " ++ p.2 ++ piecesCat (q :: qs)).data
        = ' ' :: (fmtPair p ++ " " ++ spaceJoin ((q :: qs).map fmtPair)).data
      simp only [String.data_append]
      rw [ih q]
      simp only [fmtPair, String.data_append, List.append_assoc]
      rfl

theorem spaceJoin_head (p : String × String) (ps : List (String × String)) :
    (spaceJoin ((p :: ps).map fmtPair)).data.head? = some 'C' := by
  cases ps with
  | nil => exact fmtPair_head p
  | cons q qs =>
      show (fmtPair p ++ " "
        ++ spaceJoin ((q :: qs).map fmtPair)).data.head? = some 'C'
      rfl

theorem spaceJoin_getLast :
    ∀ (ps : List (String × String)) (p : String × String),
    lastMsgOk (p :: ps) = true →
    ∃ c, (spaceJoin ((p :: ps).map fmtPair)).data.getLast? = some c
      ∧ pySpace c = false := by
  intro ps
  induction ps with
  | nil =>
      intro p h
      have hp : lastOk p.2 = true := by simpa [lastMsgOk] using h
      unfold lastOk at hp
      cases hc : p.2.data.getLast? with
      | none => rw [hc] at hp; simp at hp
      | some c =>
          rw [hc] at hp
          simp only [Bool.not_eq_true'] at hp
          refine ⟨c, ?_, hp⟩
          show (("Code: " ++ p.1 ++ ". ").data ++ p.2.data).getLast? = some c
          rw [List.getLast?_append_of_ne_nil _
            (by intro hnil; rw [hnil] at hc; simp at hc)]
          exact hc
  | cons q qs ih =>
      intro p h
      obtain ⟨c, hc, hcs⟩ := ih q (by simpa [lastMsgOk] using h)
      refine ⟨c, ?_, hcs⟩
      show ((fmtPair p ++ " ").data
        ++ (spaceJoin ((q :: qs).map fmtPair)).data).getLast? = some c
      rw [List.getLast?_append_of_ne_nil _
        (by intro hnil; rw [hnil] at hc; simp at hc)]
      exact hc

theorem pyStrip_piecesCat (pairs : List (String × String))
    (h : lastMsgOk pairs = true) :
    pyStrip (piecesCat pairs) = spaceJoin (pairs.map fmtPair) := by
  cases pairs with
  | nil => rfl
  | cons p ps =>
      unfold pyStrip
      rw [piecesCat_data ps p]
      rw [List.dropWhile_cons_of_pos (by decide)]
      rw [dropWhile_head_not _ 'C' (spaceJoin_head p ps) (by decide)]
      obtain ⟨c, hc, hcs⟩ := spaceJoin_getLast ps p h
      rw [dropWhile_head_not _ c
        (by rw [← List.getLast?_eq_head?_reverse]; exact hc) hcs]
      rw [List.reverse_reverse]

/-!  Theorems for the claims. -/

/-- An envelope with one error whose message carries a trailing space. -/
def exTrailRoot : Element :=
  nodeEl "response"
    [leafEl "status" (some "failure"),
     nodeEl "errors"
       [{ tag := "error", attrib := [("code", "1")], text := some "A ",
          children := [] }]]

/-- C2 (counterexample to the claim as stated): for the body with one error
descriptor of code 1 and message A-followed-by-a-space, the claimed
concatenation of every descriptor as Code: code. message joined by single
spaces is Code: 1. A-space, but the code's closing strip() right-trims the
accumulated text and _parse_answer returns Code: 1. A, a different string. -/
theorem parse_answer_trailing_space_trimmed :
    NICApi.parseAnswer "B" exTrailRoot =
      .ok (some "failure", "Code: 1. A", none)
    ∧ spaceJoin ([("1", "A ")].map fmtPair) = "Code: 1. A "
    ∧ ("Code: 1. A" : String) ≠ "Code: 1. A " :=
  ⟨rfl, rfl, by decide⟩

/-- C2 (amended): with a status element present, _parse_answer returns the
status text, the data element, and an error text that renders every
errors/error descriptor, in document order, as Code: code. message (a
missing code attribute rendered as the empty string) joined by single
spaces — provided the final message ends in a non-whitespace character;
otherwise the closing strip() right-trims the last rendered message. -/
theorem parse_answer_error_concat (body : String) (root stEl : Element)
    (pairs : List (String × String))
    (hst : root.find ["status"] = some stEl)
    (hmap : (root.findAll ["errors", "error"]).map
        (fun it => (it.attrGetD "code" "", it.text))
      = pairs.map (fun p => (p.1, some p.2)))
    (hws : lastMsgOk pairs = true) :
    NICApi.parseAnswer body root =
      .ok (stEl.text, spaceJoin (pairs.map fmtPair), root.find ["data"]) := by
  simp only [NICApi.parseAnswer, hst]
  rw [errLoop_eq_piecesCat _ pairs hmap, pyStrip_piecesCat pairs hws]

/-- The failure envelope of the claim: status failure and two error entries
with codes 1 and 2 and messages A and B. -/
def exFailureRoot : Element :=
  nodeEl "response"
    [leafEl "status" (some "failure"),
     nodeEl "errors"
       [{ tag := "error", attrib := [("code", "1")], text := some "A",
          children := [] },
        { tag := "error", attrib := [("code", "2")], text := some "B",
          children := [] }]]

/-- C2 witness: the two-error failure body yields exactly
Code: 1. A Code: 2. B. -/
theorem parse_answer_error_concat_witness :
    NICApi.parseAnswer "B" exFailureRoot =
      .ok (some "failure", "Code: 1. A Code: 2. B", none) := by
  have h := parse_answer_error_concat "B" exFailureRoot
    (leafEl "status" (some "failure")) [("1", "A"), ("2", "B")]
    rfl rfl (by decide)
  exact h

/-- C1: the round-trip law decode(encode(r)) == r fails on the code for any
record carrying an id: _get_kwargs stores the decoded id attribute under the
kwargs key id, which DNSRecord.__init__ (parameter id_) discards, so the
decoded record always has id None.  Here an A record with id 210074 encodes
and decodes to the same record with its id erased, which differs from r. -/
theorem a_record_roundtrip_drops_id :
    ARecord.from_xml
        (Rec.to_xml (.a { id := some 210074, name := some "host",
                          idn_name := some "host", ttl := none }
          (some "1.2.3.4")))
      = .ok (.a { id := none, name := some "host", idn_name := some "host",
                  ttl := none } (some "1.2.3.4"))
    ∧ (Rec.a { id := none, name := some "host", idn_name := some "host",
               ttl := none } (some "1.2.3.4"))
      ≠ (.a { id := some 210074, name := some "host", idn_name := some "host",
              ttl := none } (some "1.2.3.4")) :=
  ⟨rfl, by decide⟩

/-- C3: a successful envelope without a data element yields the empty list
under data_as_list semantics and a DnsApiException embedding the raw body
under data_none_except semantics. -/
theorem request_data_missing_data (body : String) (root stEl : Element)
    (hst : root.find ["status"] = some stEl)
    (hsucc : stEl.text = some "success")
    (hdata : root.find ["data"] = none) :
    NICApi.requestData body root true false = .ok .emptyList
    ∧ NICApi.requestData body root false true =
        .error (.dnsApiException ("Cannot find <data> in response: " ++ body)) := by
  simp [NICApi.requestData, NICApi.parseAnswer, hst, hdata, hsucc]

/-- C3 witness at a concrete successful no-data envelope. -/
theorem request_data_missing_data_witness :
    NICApi.requestData "B" exSuccessNoData true false = .ok .emptyList
    ∧ NICApi.requestData "B" exSuccessNoData false true =
        .error (.dnsApiException "Cannot find <data> in response: B") := by
  exact request_data_missing_data "B" exSuccessNoData
    (leafEl "status" (some "success")) rfl rfl rfl

/-- C4: a body whose XML parse has no status element makes _parse_answer
raise a DnsApiException whose message embeds the body, and _parse_answer
never returns a triple without a status element. -/
theorem parse_answer_requires_status (body : String) (root : Element) :
    (root.find ["status"] = none →
      NICApi.parseAnswer body root =
        .error (.dnsApiException
          ("Cannot find <status> in response: " ++ body)))
    ∧ ((NICApi.parseAnswer body root).isOk →
        (root.find ["status"]).isSome) := by
  constructor
  · intro h
    simp [NICApi.parseAnswer, h]
  · intro h
    unfold NICApi.parseAnswer at h
    cases hs : root.find ["status"] with
    | none => rw [hs] at h; simp [Except.isOk, Except.toBool] at h
    | some st => simp

/-- C4 witness at a concrete status-free envelope. -/
theorem parse_answer_requires_status_witness :
    NICApi.parseAnswer "B" exNoStatus =
      .error (.dnsApiException "Cannot find <status> in response: B") :=
  (parse_answer_requires_status "B" exNoStatus).1 rfl

/-- C5: records() against a parsed zone sub-element whose name attribute
differs from the requested zone fails on the zone-mismatch guard (the assert,
raising AssertionError) and returns no records; with equal names it returns
the dispatched decodes of the rr children in document order. -/
theorem records_zone_name_guard (zone : String) (data z : Element) (n : String)
    (hz : data.find ["zone"] = some z)
    (hn : z.attrGet "name" = some n) :
    (n ≠ zone → NICApi.recordsDecode zone data = .error .assertionError)
    ∧ (n = zone → ∀ rs, List.mapM parse_record (z.findAll ["rr"]) = .ok rs →
        NICApi.recordsDecode zone data = .ok rs) := by
  simp only [NICApi.recordsDecode, hz, hn]
  constructor
  · intro h
    rw [if_neg h]
  · intro h rs hrs
    rw [if_pos h, hrs]

/-- C5 witness: requesting zone a.ru against a response zone named b.ru. -/
theorem records_zone_name_guard_witness :
    NICApi.recordsDecode "a.ru" exDataZoneB = .error .assertionError :=
  (records_zone_name_guard "a.ru" exDataZoneB
    { tag := "zone", attrib := [("name", "b.ru")], text := none,
      children := [] } "b.ru" rfl rfl).1 (by decide)

/-- C6: DNSRecord.create reads the type tag; a tag outside the closed
registry of nine raises the unknown-record-type TypeError, and each
registered tag selects exactly the from_xml of the variant bearing it. -/
theorem create_closed_dispatch (obj tyEl : Element) (t : String)
    (hty : obj.find ["type"] = some tyEl) (ht : tyEl.text = some t) :
    (t ∉ registeredTags →
      DNSRecord.create obj = .error (.typeError ("Unknown record type: " ++ t)))
    ∧ (t = "SOA" → DNSRecord.create obj = SOARecord.from_xml obj)
    ∧ (t = "NS" → DNSRecord.create obj = NSRecord.from_xml obj)
    ∧ (t = "A" → DNSRecord.create obj = ARecord.from_xml obj)
    ∧ (t = "AAAA" → DNSRecord.create obj = AAAARecord.from_xml obj)
    ∧ (t = "CNAME" → DNSRecord.create obj = CNAMERecord.from_xml obj)
    ∧ (t = "MX" → DNSRecord.create obj = MXRecord.from_xml obj)
    ∧ (t = "TXT" → DNSRecord.create obj = TXTRecord.from_xml obj)
    ∧ (t = "SRV" → DNSRecord.create obj = SRVRecord.from_xml obj)
    ∧ (t = "PTR" → DNSRecord.create obj = PTRRecord.from_xml obj) := by
  refine ⟨?_, ?_, ?_, ?_, ?_, ?_, ?_, ?_, ?_, ?_⟩
  · intro h
    simp only [registeredTags, List.mem_cons, List.not_mem_nil, or_false,
      not_or] at h
    obtain ⟨h1, h2, h3, h4, h5, h6, h7, h8, h9⟩ := h
    simp [DNSRecord.create, hty, ht, h1, h2, h3, h4, h5, h6, h7, h8, h9,
      fmtOptStr]
  all_goals intro h; subst h; simp [DNSRecord.create, hty, ht]

/-- C6 witness: an UNKNOWN tag is rejected; a PTR tag selects the PTR
decoder. -/
theorem create_closed_dispatch_witness :
    DNSRecord.create exUnknown =
      .error (.typeError "Unknown record type: UNKNOWN")
    ∧ DNSRecord.create exPtr = PTRRecord.from_xml exPtr :=
  ⟨(create_closed_dispatch exUnknown (leafEl "type" (some "UNKNOWN"))
      "UNKNOWN" rfl rfl).1 (by decide),
   (create_closed_dispatch exPtr (leafEl "type" (some "PTR"))
      "PTR" rfl rfl).2.2.2.2.2.2.2.2.2 rfl⟩

/-- C7 (counterexample to the claim as stated): a wire TXT element with two
text fragments does not decode to a record with an assembled value; the txt
kwarg is only bound when exactly one fragment exists, so cls(**kwargs) raises
TypeError for the missing required argument. -/
theorem txt_decode_two_fragments_fails :
    TXTRecord.from_xml exTxt2 =
      .error (.typeError
        "TXTRecord.__init__ missing 1 required positional argument: txt") :=
  rfl

/-- C7 (amended): a TXT element decodes successfully exactly when it carries
one txt/string fragment, whose text becomes the single txt field; any other
fragment count fails with the missing-argument TypeError. -/
theorem txt_decode_exactly_one_fragment (obj tyEl nameEl : Element)
    (hty : obj.find ["type"] = some tyEl) (ht : tyEl.text = some "TXT")
    (hname : obj.find ["name"] = some nameEl) :
    (∀ t, (obj.findAll ["txt", "string"]).map Element.text = [t] →
      TXTRecord.from_xml obj =
        .ok (.txt { id := none, name := nameEl.text,
                    idn_name :=
                      (((obj.find ["idn-name"]).bind Element.text).or
                        nameEl.text),
                    ttl := (obj.find ["ttl"]).bind Element.text } t))
    ∧ (((obj.findAll ["txt", "string"]).map Element.text).length ≠ 1 →
      TXTRecord.from_xml obj =
        .error (.typeError
          "TXTRecord.__init__ missing 1 required positional argument: txt")) := by
  constructor
  · intro t hfr
    simp [TXTRecord.from_xml, typeCheckFor, DNSRecord.getKwargs, hty, ht,
      hname, hfr, DNSRecord.init]
    rfl
  · intro h
    rcases hl : (obj.findAll ["txt", "string"]).map Element.text with
      _ | ⟨t, _ | ⟨u, rest⟩⟩
    · simp [TXTRecord.from_xml, typeCheckFor, DNSRecord.getKwargs, hty, ht,
        hname, hl]
      rfl
    · rw [hl] at h; simp at h
    · simp [TXTRecord.from_xml, typeCheckFor, DNSRecord.getKwargs, hty, ht,
        hname, hl]
      rfl

/-- C7 witness: a single-fragment TXT element decodes to a record whose one
txt field is that fragment. -/
theorem txt_decode_exactly_one_fragment_witness :
    TXTRecord.from_xml exTxt1 =
      .ok (.txt { id := none, name := some "n", idn_name := some "n",
                  ttl := none } (some "hello")) := by
  have h := (txt_decode_exactly_one_fragment exTxt1
    (leafEl "type" (some "TXT")) (leafEl "name" (some "n"))
    rfl rfl rfl).1 (some "hello") rfl
  exact h

/-- C8: the write-request builder of add_record never produces the declared
request/rr-list body: the builder expression names textwrap, which api.py
does not import, so it raises NameError before any body exists. -/
theorem add_record_body_build_raises :
    NICApi.addRecordBuildBody
        [Rec.to_xml (.a { id := none, name := some "host",
                          idn_name := some "host", ttl := none }
          (some "1.2.3.4"))]
      = .error (.nameError "name textwrap is not defined") :=
  rfl

/-- C9: every record variant constructor (and the base class) run with the
identifier 0 raises the invalid-id ValueError and produces no record. -/
theorem ctor_rejects_zero_id (serial refresh retry expire minimum : Int)
    (mname rname : RBase) (preference priority weight port : Int)
    (name idn ttl v : Option String) :
    DNSRecord.init (some 0) name idn ttl =
      .error (.valueError "Invalid record ID!")
    ∧ SOARecord.mk serial refresh retry expire minimum mname rname (some 0)
        name idn ttl = .error (.valueError "Invalid record ID!")
    ∧ NSRecord.mk v (some 0) name idn ttl =
        .error (.valueError "Invalid record ID!")
    ∧ ARecord.mk v (some 0) name idn ttl =
        .error (.valueError "Invalid record ID!")
    ∧ AAAARecord.mk v (some 0) name idn ttl =
        .error (.valueError "Invalid record ID!")
    ∧ CNAMERecord.mk v (some 0) name idn ttl =
        .error (.valueError "Invalid record ID!")
    ∧ MXRecord.mk preference v (some 0) name idn ttl =
        .error (.valueError "Invalid record ID!")
    ∧ TXTRecord.mk v (some 0) name idn ttl =
        .error (.valueError "Invalid record ID!")
    ∧ SRVRecord.mk priority weight port v (some 0) name idn ttl =
        .error (.valueError "Invalid record ID!")
    ∧ PTRRecord.mk v (some 0) name idn ttl =
        .error (.valueError "Invalid record ID!") :=
  ⟨rfl, rfl, rfl, rfl, rfl, rfl, rfl, rfl, rfl, rfl⟩

/-- C10: DNSRecord.__init__ rejects only the exact id 0: any other integer,
negative ones included, is stored unchanged, and construction fails exactly
when the id is 0. -/
theorem init_rejects_only_zero (i : Int) (name idn ttl : Option String) :
    (i ≠ 0 → DNSRecord.init (some i) name idn ttl =
      .ok { id := some i, name := name, idn_name := idn.or name, ttl := ttl })
    ∧ ((DNSRecord.init (some i) name idn ttl).isOk ↔ i ≠ 0) := by
  by_cases h : i = 0 <;>
    simp [DNSRecord.init, h, Except.isOk, Except.toBool]

/-- C10 witness: a negative id is accepted and stored unchanged. -/
theorem init_rejects_only_zero_witness :
    DNSRecord.init (some (-5)) (some "x") none none =
      .ok { id := some (-5), name := some "x", idn_name := some "x",
            ttl := none } :=
  (init_rejects_only_zero (-5) (some "x") none none).1 (by decide)

end Aionic
